import Mathlib

/-!
Verification of the `weather` package (weather.go, latest schema).

Go `float64` values are modelled as `ℚ`: every constant appearing in the
source (22.5, 0.25, …) is an exact binary fraction, so ordering and equality
comparisons on these constants agree with the source's float comparisons.
Go's multi-value returns `(T, error)` are modelled as products with an
`Option`-valued error component; out-of-range slice indexing (a runtime
panic in Go) is modelled by an `Option` result where `none` marks the panic.
Calls to `time.Unix(..).Format(..)` are kept abstract as an explicit
parameter (`TimeFmt`), since no property below depends on the concrete
formatted text.
-/

namespace weather

/-- Speed ... wind speed in m/s (Go: `type Speed float64`). -/
abbrev Speed := ℚ

/-- Direction ... wind bearing in degrees (Go: `type Direction float64`). -/
abbrev Direction := ℚ

/-- Phase ... moon-phase fraction (Go: `type Phase float64`). -/
abbrev Phase := ℚ

-- limits for wind directions (Go constant block)
def N : ℚ := 0

def NNO : ℚ := 22.5

def NO : ℚ := 45

def ONO : ℚ := 67.5

def O : ℚ := 90

def OSO : ℚ := 112.5

def SO : ℚ := 135

def SSO : ℚ := 157.5

def S : ℚ := 180

def SSW : ℚ := 202.5

def SW : ℚ := 225

def WSW : ℚ := 247.5

def W : ℚ := 270

def WNW : ℚ := 292.5

def NW : ℚ := 315

def NNW : ℚ := 337.5

/-- Direction ... converts degrees into human readable wind direction
(Go: `func (d Direction) Direction() string`). -/
def Direction.Direction (d : Direction) : String :=
  if (NNW + (360 - NNW) / 2 < d ∧ d ≤ 360) ∨ (0 ≤ d ∧ d ≤ NNO / 2) then "N"
  else if NNO / 2 < d ∧ d ≤ NNO + (NO - NNO) / 2 then "NNO"
  else if NNO + (NO - NNO) / 2 < d ∧ d ≤ NO + (ONO - NO) / 2 then "NO"
  else if NO + (ONO - NO) / 2 < d ∧ d ≤ ONO + (O - ONO) / 2 then "ONO"
  else if ONO + (O - ONO) / 2 < d ∧ d ≤ O + (OSO - O) / 2 then "O"
  else if O + (OSO - O) / 2 < d ∧ d ≤ OSO + (SO - OSO) / 2 then "OSO"
  else if OSO + (SO - OSO) / 2 < d ∧ d ≤ SO + (SSO - SO) / 2 then "SO"
  else if SO + (SSO - SO) / 2 < d ∧ d ≤ SSO + (S - SSO) / 2 then "SSO"
  else if SSO + (S - SSO) / 2 < d ∧ d ≤ S + (SSW - S) / 2 then "S"
  else if S + (SSW - S) / 2 < d ∧ d ≤ SSW + (SW - SSW) / 2 then "SSW"
  else if SSW + (SW - SSW) / 2 < d ∧ d ≤ SW + (WSW - SW) / 2 then "SW"
  else if SW + (WSW - SW) / 2 < d ∧ d ≤ WSW + (W - WSW) / 2 then "WSW"
  else if WSW + (W - WSW) / 2 < d ∧ d ≤ W + (WNW - W) / 2 then "W"
  else if W + (WNW - W) / 2 < d ∧ d ≤ WNW + (NW - WNW) / 2 then "WNW"
  else if WNW + (NW - WNW) / 2 < d ∧ d ≤ NW + (NNW - NW) / 2 then "NW"
  else if NW + (NNW - NW) / 2 < d ∧ d ≤ NNW + (360 - NNW) / 2 then "NNW"
  else "UNBEKANNT"

/-- Description ... human readable moon phase
(Go: `func (p Phase) Description() string`). -/
def Phase.Description (p : Phase) : String :=
  if p = 0 then "Neumond"
  else if 0 < p ∧ p < 0.25 then "zunehmender Mond (vor Halbmond)"
  else if p = 0.25 then "zunehmender Halbmond"
  else if 0.25 < p ∧ p < 0.5 then "zunehmender Mond (nach Halbmond)"
  else if p = 0.5 then "Vollmond"
  else if 0.5 < p ∧ p < 0.75 then "abnehmender Mond (vor Halbmond)"
  else if p = 0.75 then "abnehmender Halbmond"
  else if 0.75 < p ∧ p < 1 then "abnehmender Mond (nach Halbmond)"
  else if p = 1 then "Neumond"
  else "UNBEKANNT"

/-- KmPerHour ... helper method for speed output
(Go: `func (s Speed) KmPerHour() float64`). -/
def Speed.KmPerHour (s : Speed) : ℚ := s * 3.6

/-- The 16 compass labels of the wind-sector classifier, in source order. -/
def sectorLabels : List String :=
  ["N", "NNO", "NO", "ONO", "O", "OSO", "SO", "SSO",
   "S", "SSW", "SW", "WSW", "W", "WNW", "NW", "NNW"]

/-- Abstraction of `time.Unix(sec, 0).Format(layout)` for the four layouts the
parser uses. The parser is proved correct for every such formatter family. -/
structure TimeFmt where
  fmtFull : Int → String
  fmtHM : Int → String
  fmtDate : Int → String
  fmtDateHM : Int → String

/-- Coordinates (Go struct, fields `Lon`, `Lat`). -/
structure Coordinates where
  Lon : ℚ
  Lat : ℚ
deriving DecidableEq

/-- Conditions ... point-in-time weather snapshot (Go struct). -/
structure Conditions where
  Timestamp : String
  Sunrise : String
  Sunset : String
  Summary : String
  Temperature : ℚ
  FeelsLike : ℚ
  DewPoint : ℚ
  Pressure : Int
  Humidity : Int
  WindSpeed : Speed
  WindGust : Speed
  WindDirection : Direction
deriving DecidableEq

/-- ForecastHourly (Go struct, latest schema). -/
structure ForecastHourly where
  Day : String
  Hour : String
  Temperature : ℚ
  RainChance : ℚ
deriving DecidableEq

/-- DailyTempBenchmarks (Go struct). -/
structure DailyTempBenchmarks where
  Max : ℚ
  Min : ℚ
  Morning : ℚ
  Day : ℚ
  Evening : ℚ
  Night : ℚ
deriving DecidableEq

/-- Alert (Go struct). -/
structure Alert where
  Start : String
  End : String
  Name : String
  Description : String
deriving DecidableEq

/-- ForecastDaily (Go struct, latest schema). -/
structure ForecastDaily where
  Day : String
  Moonrise : String
  Moonset : String
  Moonphase : Phase
  Temp : DailyTempBenchmarks
  Alerts : List Alert
deriving DecidableEq

/-- Forecast (Go struct). -/
structure Forecast where
  Hourly : List ForecastHourly
  Daily : List ForecastDaily
deriving DecidableEq

/-- Element of `WeatherResponse.Current.Weather` (anonymous Go struct). -/
structure OWMWeather where
  Description : String
deriving DecidableEq

/-- `WeatherResponse.Current` (anonymous Go struct). -/
structure OWMCurrent where
  Weather : List OWMWeather
  DT : Int
  Sunrise : Int
  Sunset : Int
  Temp : ℚ
  Feels_Like : ℚ
  Dew_Point : ℚ
  Pressure : Int
  Humidity : Int
  Wind_Speed : Speed
  Wind_Gust : Speed
  Wind_Deg : Direction
deriving DecidableEq

/-- Element of `WeatherResponse.Hourly` (anonymous Go struct). -/
structure OWMHourlySlot where
  DT : Int
  Temp : ℚ
  PoP : ℚ
deriving DecidableEq

/-- `WeatherResponse.Daily[i].Temp` (anonymous Go struct). -/
structure OWMTemp where
  Max : ℚ
  Min : ℚ
  Morn : ℚ
  Day : ℚ
  Eve : ℚ
  Night : ℚ
deriving DecidableEq

/-- `WeatherResponse.Daily[i].Alerts[j]` (anonymous Go struct). -/
structure OWMAlert where
  Start : Int
  End : Int
  Name : String
  Description : String
deriving DecidableEq

/-- Element of `WeatherResponse.Daily` (anonymous Go struct). -/
structure OWMDailySlot where
  DT : Int
  Moonrise : Int
  Moonset : Int
  Moon_Phase : Phase
  Temp : OWMTemp
  Alerts : List OWMAlert
deriving DecidableEq

/-- WeatherResponse ... upstream one-call JSON shape (Go struct). -/
structure WeatherResponse where
  Current : OWMCurrent
  Hourly : List OWMHourlySlot
  Daily : List OWMDailySlot
deriving DecidableEq

/-- Element of GeoResponse (Go: `type GeoResponse []struct{ Lon, Lat float64 }`). -/
structure GeoElem where
  Lon : ℚ
  Lat : ℚ
deriving DecidableEq

/-- GeoResponse (Go slice type). -/
abbrev GeoResponse := List GeoElem

/-- The distinct failure conditions of the two parsers. `malformed` stands for
`json.Unmarshal` rejecting the bytes; each other constructor stands for the
corresponding explicit validation in the source. -/
inductive ParseErr where
  | malformed
  | missingCurrentWeather
  | insufficientForecastData
  | noLocationMatch
deriving DecidableEq

/-- Go zero value of `Conditions` (returned on every parse failure). -/
def Conditions.zero : Conditions :=
  { Timestamp := "", Sunrise := "", Sunset := "", Summary := "", Temperature := 0,
    FeelsLike := 0, DewPoint := 0, Pressure := 0, Humidity := 0,
    WindSpeed := 0, WindGust := 0, WindDirection := 0 }

/-- Go zero value of `Forecast` (returned on every parse failure). -/
def Forecast.zero : Forecast := { Hourly := [], Daily := [] }

/-- Go zero value of `Coordinates` (returned on every geocode parse failure). -/
def Coordinates.zero : Coordinates := { Lon := 0, Lat := 0 }

/-- Conversion of one upstream hourly slot (loop body of `ParseWeatherResponse`). -/
def convHourly (tf : TimeFmt) (slot : OWMHourlySlot) : ForecastHourly :=
  { Day := tf.fmtDate slot.DT
    Hour := tf.fmtHM slot.DT
    Temperature := slot.Temp
    RainChance := slot.PoP * 100 }

/-- Conversion of one upstream alert (inner loop body of `ParseWeatherResponse`). -/
def convAlert (tf : TimeFmt) (a : OWMAlert) : Alert :=
  { Start := tf.fmtDateHM a.Start
    End := tf.fmtDateHM a.End
    Name := a.Name
    Description := a.Description }

/-- Conversion of one upstream daily slot (loop body of `ParseWeatherResponse`);
the alert list starts at `[]` and is extended by appending, as in the source. -/
def convDaily (tf : TimeFmt) (slot : OWMDailySlot) : ForecastDaily :=
  { Day := tf.fmtDate slot.DT
    Moonrise := tf.fmtHM slot.Moonrise
    Moonset := tf.fmtHM slot.Moonset
    Moonphase := slot.Moon_Phase
    Temp := { Max := slot.Temp.Max, Min := slot.Temp.Min, Morning := slot.Temp.Morn,
              Day := slot.Temp.Day, Evening := slot.Temp.Eve, Night := slot.Temp.Night }
    Alerts := slot.Alerts.foldl (fun acc a => acc ++ [convAlert tf a]) [] }

/-- ParseWeatherResponse (Go: `func ParseWeatherResponse(data []byte)
(Conditions, Forecast, error)`). The input models the outcome of
`json.Unmarshal`: `none` when the bytes do not deserialize, `some resp`
otherwise. The third component models the returned error. -/
def ParseWeatherResponse (tf : TimeFmt) (dec : Option WeatherResponse) :
    Conditions × Forecast × Option ParseErr :=
  match dec with
  | none => (Conditions.zero, Forecast.zero, some ParseErr.malformed)
  | some resp =>
    if resp.Current.Weather.length < 1 then
      (Conditions.zero, Forecast.zero, some ParseErr.missingCurrentWeather)
    else if resp.Hourly.length < 12 then
      (Conditions.zero, Forecast.zero, some ParseErr.insufficientForecastData)
    else if resp.Daily.length < 3 then
      (Conditions.zero, Forecast.zero, some ParseErr.insufficientForecastData)
    else
      ({ Timestamp := tf.fmtFull resp.Current.DT
         Sunrise := tf.fmtHM resp.Current.Sunrise
         Sunset := tf.fmtHM resp.Current.Sunset
         Summary := (resp.Current.Weather.headD { Description := "" }).Description
         Temperature := resp.Current.Temp
         FeelsLike := resp.Current.Feels_Like
         DewPoint := resp.Current.Dew_Point
         Pressure := resp.Current.Pressure
         Humidity := resp.Current.Humidity
         WindSpeed := resp.Current.Wind_Speed
         WindGust := resp.Current.Wind_Gust
         WindDirection := resp.Current.Wind_Deg },
       { Hourly := resp.Hourly.foldl (fun acc slot => acc ++ [convHourly tf slot]) []
         Daily := resp.Daily.foldl (fun acc slot => acc ++ [convDaily tf slot]) [] },
       none)

/-- ParseGeoResponse (Go: `func ParseGeoResponse(data []byte)
(Coordinates, error)`). The input models the outcome of `json.Unmarshal`. -/
def ParseGeoResponse (dec : Option GeoResponse) : Coordinates × Option ParseErr :=
  match dec with
  | none => (Coordinates.zero, some ParseErr.malformed)
  | some resp =>
    match resp with
    | [] => (Coordinates.zero, some ParseErr.noLocationMatch)
    | g :: _ => ({ Lat := g.Lat, Lon := g.Lon }, none)

/-- Concrete formatter family used by the closed-form witnesses. -/
def tf0 : TimeFmt :=
  { fmtFull := fun n => toString n
    fmtHM := fun n => toString n
    fmtDate := fun n => toString n
    fmtDateHM := fun n => toString n }

/-- Upstream response whose current-weather array is empty. -/
def respMissing : WeatherResponse :=
  { Current := { Weather := [], DT := 0, Sunrise := 0, Sunset := 0, Temp := 0,
                 Feels_Like := 0, Dew_Point := 0, Pressure := 0, Humidity := 0,
                 Wind_Speed := 0, Wind_Gust := 0, Wind_Deg := 0 }
    Hourly := []
    Daily := [] }

/-- Upstream response accepted by all three structural checks. -/
def respOk : WeatherResponse :=
  { Current := { Weather := [{ Description := "Leichter Regen" }], DT := 0, Sunrise := 0,
                 Sunset := 0, Temp := 31, Feels_Like := 32, Dew_Point := 21, Pressure := 1013,
                 Humidity := 70, Wind_Speed := 5, Wind_Gust := 9, Wind_Deg := 180 }
    Hourly := List.replicate 12 { DT := 0, Temp := 20, PoP := 1 }
    Daily := List.replicate 3
      { DT := 0, Moonrise := 0, Moonset := 0, Moon_Phase := 0,
        Temp := { Max := 25, Min := 15, Morn := 16, Day := 24, Eve := 20, Night := 17 },
        Alerts := [] } }

/-- Description of one closed rainy run: period of more than 1 hour when the
first and last seen hour differ, short single-hour period otherwise
(string building of `GetRainyPeriods`). -/
def describeRun (a b : String) : String :=
  if a ≠ b then "von " ++ a ++ " - " ++ b else "um " ++ a

/-- Description of the hanging run flushed after the scan, with the
all-day special case of `GetRainyPeriods`. -/
def describeFinal (a b : String) : String :=
  if describeRun a b = "von 00:00 - 23:00" then "den ganzen Tag über" else describeRun a b

/-- Loop body of `GetRainyPeriods` for a slot of the selected day. State is
(values, itsRaining, previousSlot) exactly as in the source. -/
def rainStepF (st : List String × String × String) (slot : ForecastHourly) :
    List String × String × String :=
  if 0 < slot.RainChance then
    (st.1, if st.2.1 = "" then slot.Hour else st.2.1, slot.Hour)
  else if st.2.2 ≠ "" then
    (st.1 ++ [describeRun st.2.1 st.2.2], "", "")
  else st

/-- Full loop body of `GetRainyPeriods`: slots of other days are skipped
(the `continue` in the source). -/
def rainStep (reference : String) (st : List String × String × String)
    (slot : ForecastHourly) : List String × String × String :=
  if slot.Day ≠ reference then st else rainStepF st slot

/-- Post-loop flush of a hanging rainy period (`GetRainyPeriods`, "process
hanging periods till midnight"). -/
def rainFlush (st : List String × String × String) : List String :=
  if st.2.1 ≠ "" then st.1 ++ [describeFinal st.2.1 st.2.2] else st.1

/-- GetRainyPeriods (Go: `func GetRainyPeriods(f Forecast, offset int) string`).
The source indexes `f.Daily[offset]` unconditionally; `none` models the
out-of-range panic. -/
def GetRainyPeriods (f : Forecast) (offset : Nat) : Option String :=
  (f.Daily[offset]?).map fun day =>
    let st := f.Hourly.foldl (rainStep day.Day) ([], "", "")
    let values := rainFlush st
    if 0 < values.length then "Es regnet " ++ String.intercalate ", " values ++ "."
    else "Es regnet nicht."

/-- Specification-side run scanner: `none` means no run is open, `some (a, b)`
means a run is open with first rainy hour `a` and last seen rainy hour `b`.
Returns the list of run descriptions in scan order; the run still open when
the hours end is flushed with `describeFinal`. -/
def descsFrom : Option (String × String) → List ForecastHourly → List String
  | none, [] => []
  | some (a, b), [] => [describeFinal a b]
  | none, h :: t =>
    if 0 < h.RainChance then descsFrom (some (h.Hour, h.Hour)) t else descsFrom none t
  | some (a, b), h :: t =>
    if 0 < h.RainChance then descsFrom (some (a, h.Hour)) t
    else describeRun a b :: descsFrom none t

/-- Specification-side rendering of a day's rainy periods from its
(already filtered) hourly slots. -/
def rainyRunsDescription (hours : List ForecastHourly) : String :=
  if 0 < (descsFrom none hours).length then
    "Es regnet " ++ String.intercalate ", " (descsFrom none hours) ++ "."
  else "Es regnet nicht."

/-- Loop state corresponding to a `descsFrom` scanner state. -/
def openState (cur : Option (String × String)) (values : List String) :
    List String × String × String :=
  match cur with
  | none => (values, "", "")
  | some (a, b) => (values, a, b)

/-- Scanner-state well-formedness: an open run never carries empty sentinels. -/
def curOk : Option (String × String) → Prop
  | none => True
  | some p => p.1 ≠ "" ∧ p.2 ≠ ""

/-- C2 counterexample: a run whose first rainy hour is 00:00 and whose last is
23:00, but which is closed by a later dry slot of the same day, is rendered
with the from-to phrasing, not the special all-day phrase the claim
predicts for every run covering 00:00 through 23:00. -/
def cexDaily : ForecastDaily :=
  { Day := "01.01.2026", Moonrise := "", Moonset := "", Moonphase := 0,
    Temp := { Max := 0, Min := 0, Morning := 0, Day := 0, Evening := 0, Night := 0 },
    Alerts := [] }

/-- Forecast for the C2 counterexample: same-day slots 00:00 (rain),
23:00 (rain), 12:00 (dry), in upstream order. -/
def cexF : Forecast :=
  { Hourly :=
      [{ Day := "01.01.2026", Hour := "00:00", Temperature := 0, RainChance := 100 },
       { Day := "01.01.2026", Hour := "23:00", Temperature := 0, RainChance := 100 },
       { Day := "01.01.2026", Hour := "12:00", Temperature := 0, RainChance := 0 }],
    Daily := [cexDaily, cexDaily, cexDaily] }

/-- Daily entry for the C2 witness forecast. -/
def wRainDaily : ForecastDaily :=
  { Day := "02.01.2026", Moonrise := "", Moonset := "", Moonphase := 0,
    Temp := { Max := 0, Min := 0, Morning := 0, Day := 0, Evening := 0, Night := 0 },
    Alerts := [] }

/-- C2 witness forecast: a two-hour run 10:00–11:00, a dry gap, a single
rainy hour 18:00 still open at the end of the scan, plus a slot of another
day that must be skipped. -/
def wRainF : Forecast :=
  { Hourly :=
      [{ Day := "02.01.2026", Hour := "09:00", Temperature := 0, RainChance := 0 },
       { Day := "02.01.2026", Hour := "10:00", Temperature := 0, RainChance := 80 },
       { Day := "02.01.2026", Hour := "11:00", Temperature := 0, RainChance := 50 },
       { Day := "02.01.2026", Hour := "12:00", Temperature := 0, RainChance := 0 },
       { Day := "03.01.2026", Hour := "13:00", Temperature := 0, RainChance := 90 },
       { Day := "02.01.2026", Hour := "18:00", Temperature := 0, RainChance := 40 }],
    Daily := [wRainDaily, wRainDaily, wRainDaily] }

/-- PrintRain (Go: `func PrintRain(f Forecast)`): the printed lines. The
source unconditionally indexes daily entries 0, 2 (header) and 0, 1, 2
(lines) and calls `GetRainyPeriods` for offsets 0, 1, 2; `none` models the
out-of-range panic. -/
def PrintRain (f : Forecast) : Option (List String) :=
  match f.Daily[0]?, f.Daily[2]?, GetRainyPeriods f 0, f.Daily[1]?,
      GetRainyPeriods f 1, GetRainyPeriods f 2 with
  | some d0, some d2, some r0, some d1, some r1, some r2 =>
    some ["Niederschlag vom " ++ d0.Day ++ " - " ++ d2.Day,
          d0.Day ++ ": " ++ r0,
          d1.Day ++ ": " ++ r1,
          d2.Day ++ ": " ++ r2]
  | _, _, _, _, _, _ => none

/-- The offset-out-of-range error text of `PrintForecast`
(Go: `fmt.Errorf("offset %d is out of range, should be 0, 1 or 2", offset)`). -/
def offsetErrMsg (offset : Int) : String :=
  "offset " ++ toString offset ++ " is out of range, should be 0, 1 or 2"

/-- The data `PrintForecast` renders for the selected day: day label,
temperature benchmarks, rain-period description and the alert list whose
entries are printed. -/
structure ForecastOutput where
  day : String
  tempMin : ℚ
  tempMax : ℚ
  tempMorning : ℚ
  tempDay : ℚ
  tempEvening : ℚ
  tempNight : ℚ
  rain : String
  alerts : List Alert
deriving DecidableEq

/-- PrintForecast (Go: `func PrintForecast(f Forecast, offset int) error`).
The offset check happens before any forecast access. After it, the source
indexes `f.Daily[offset]` unconditionally (`none` models the panic), calls
`GetRainyPeriods`, and — when `f.Daily[offset].Alerts` is non-empty —
prints the entries of `f.Daily[0].Alerts` (note the index 0 in the loop). -/
def PrintForecast (f : Forecast) (offset : Int) : Option (Except String ForecastOutput) :=
  if offset < 0 ∨ 2 < offset then some (Except.error (offsetErrMsg offset))
  else
    match f.Daily[offset.toNat]? with
    | none => none
    | some d =>
      match GetRainyPeriods f offset.toNat with
      | none => none
      | some rain =>
        if 0 < d.Alerts.length then
          match f.Daily[0]? with
          | none => none
          | some d0 =>
            some (Except.ok
              { day := d.Day, tempMin := d.Temp.Min, tempMax := d.Temp.Max,
                tempMorning := d.Temp.Morning, tempDay := d.Temp.Day,
                tempEvening := d.Temp.Evening, tempNight := d.Temp.Night,
                rain := rain, alerts := d0.Alerts })
        else
          some (Except.ok
            { day := d.Day, tempMin := d.Temp.Min, tempMax := d.Temp.Max,
              tempMorning := d.Temp.Morning, tempDay := d.Temp.Day,
              tempEvening := d.Temp.Evening, tempNight := d.Temp.Night,
              rain := rain, alerts := [] })

/-- Forecast with three daily entries and no hourly data, for the C6 witness. -/
def wOffsetF : Forecast :=
  { Hourly := [], Daily := [wRainDaily, wRainDaily, wRainDaily] }

/-- Alert and forecast exhibiting the `PrintForecast` alert-index slip. -/
def bugAlert : Alert :=
  { Start := "02.01.2026, 10:00", End := "02.01.2026, 12:00", Name := "Sturm",
    Description := "Sturmwarnung" }

/-- Daily entry without alerts (today) for the C5 failing input. -/
def bugDay0 : ForecastDaily :=
  { Day := "01.01.2026", Moonrise := "", Moonset := "", Moonphase := 0,
    Temp := { Max := 0, Min := 0, Morning := 0, Day := 0, Evening := 0, Night := 0 },
    Alerts := [] }

/-- Daily entry with one alert (tomorrow) for the C5 failing input. -/
def bugDay1 : ForecastDaily :=
  { Day := "02.01.2026", Moonrise := "", Moonset := "", Moonphase := 0,
    Temp := { Max := 0, Min := 0, Morning := 0, Day := 0, Evening := 0, Night := 0 },
    Alerts := [bugAlert] }

/-- C5 failing input: tomorrow carries the only alert. -/
def bugF : Forecast :=
  { Hourly := [], Daily := [bugDay0, bugDay1, bugDay0] }

/-- The alert lookup outcome of `PrintAlerts`: either one day's alert list or
the no-alerts message. -/
inductive AlertsOutput where
  | alerts (l : List Alert)
  | noAlerts
deriving DecidableEq

/-- PrintAlerts (Go: `func PrintAlerts(f Forecast)`). The header indexes
daily entries 0 and 2, the switch then tests the alert lists of days 0, 1, 2
in order and prints the first non-empty one; `none` models the panic on
fewer than 3 daily entries. -/
def PrintAlerts (f : Forecast) : Option AlertsOutput :=
  match f.Daily[0]?, f.Daily[2]?, f.Daily[1]? with
  | some d0, some d2, some d1 =>
    if 0 < d0.Alerts.length then some (AlertsOutput.alerts d0.Alerts)
    else if 0 < d1.Alerts.length then some (AlertsOutput.alerts d1.Alerts)
    else if 0 < d2.Alerts.length then some (AlertsOutput.alerts d2.Alerts)
    else some AlertsOutput.noAlerts
  | _, _, _ => none

/-- Evaluation helper: the wind classifier on the wrap-around (N) sector. -/
lemma direction_eq_N {b : Direction} (h : (NNW + (360 - NNW) / 2 < b ∧ b ≤ 360) ∨ (0 ≤ b ∧ b ≤ NNO / 2)) :
    Direction.Direction b = "N" := by
  unfold Direction.Direction
  rw [if_pos h]

/-- C3 counterexample: the code classifies the boundary bearing 11.25 into
the N sector (each sector's upper bound is inclusive), not into the NNE
(`"NNO"`) sector as the claim states. -/
theorem direction_boundary_counterexample :
    Direction.Direction 11.25 = "N" ∧ Direction.Direction 11.25 ≠ "NNO" := by
  have h : Direction.Direction 11.25 = "N" :=
    direction_eq_N (Or.inr ⟨by norm_num, by norm_num [NNO]⟩)
  refine ⟨h, ?_⟩
  rw [h]
  decide

/-- C3 (amended): for every bearing b in [0,360) the wind-sector classifier
returns one of the 16 compass labels and never the fallback label;
bearings 0 and 360 are both classified "N"; each sector's upper boundary is
inclusive (the wrap-around sector covers (348.75,360] and [0,11.25]), so
the boundary bearing 11.25 is classified into the N sector, not NNE. -/
theorem direction_sector_spec :
    (∀ b : Direction, 0 ≤ b → b < 360 → Direction.Direction b ∈ sectorLabels) ∧
    Direction.Direction 0 = "N" ∧ Direction.Direction 360 = "N" ∧
    Direction.Direction 11.25 = "N" ∧ "UNBEKANNT" ∉ sectorLabels := by
  refine ⟨?_, ?_, ?_, ?_, by decide⟩
  · intro b h0 h1
    unfold Direction.Direction
    by_cases c1 : (NNW + (360 - NNW) / 2 < b ∧ b ≤ 360) ∨ (0 ≤ b ∧ b ≤ NNO / 2)
    · rw [if_pos c1]; decide
    rw [if_neg c1]
    by_cases c2 : NNO / 2 < b ∧ b ≤ NNO + (NO - NNO) / 2
    · rw [if_pos c2]; decide
    rw [if_neg c2]
    by_cases c3 : NNO + (NO - NNO) / 2 < b ∧ b ≤ NO + (ONO - NO) / 2
    · rw [if_pos c3]; decide
    rw [if_neg c3]
    by_cases c4 : NO + (ONO - NO) / 2 < b ∧ b ≤ ONO + (O - ONO) / 2
    · rw [if_pos c4]; decide
    rw [if_neg c4]
    by_cases c5 : ONO + (O - ONO) / 2 < b ∧ b ≤ O + (OSO - O) / 2
    · rw [if_pos c5]; decide
    rw [if_neg c5]
    by_cases c6 : O + (OSO - O) / 2 < b ∧ b ≤ OSO + (SO - OSO) / 2
    · rw [if_pos c6]; decide
    rw [if_neg c6]
    by_cases c7 : OSO + (SO - OSO) / 2 < b ∧ b ≤ SO + (SSO - SO) / 2
    · rw [if_pos c7]; decide
    rw [if_neg c7]
    by_cases c8 : SO + (SSO - SO) / 2 < b ∧ b ≤ SSO + (S - SSO) / 2
    · rw [if_pos c8]; decide
    rw [if_neg c8]
    by_cases c9 : SSO + (S - SSO) / 2 < b ∧ b ≤ S + (SSW - S) / 2
    · rw [if_pos c9]; decide
    rw [if_neg c9]
    by_cases c10 : S + (SSW - S) / 2 < b ∧ b ≤ SSW + (SW - SSW) / 2
    · rw [if_pos c10]; decide
    rw [if_neg c10]
    by_cases c11 : SSW + (SW - SSW) / 2 < b ∧ b ≤ SW + (WSW - SW) / 2
    · rw [if_pos c11]; decide
    rw [if_neg c11]
    by_cases c12 : SW + (WSW - SW) / 2 < b ∧ b ≤ WSW + (W - WSW) / 2
    · rw [if_pos c12]; decide
    rw [if_neg c12]
    by_cases c13 : WSW + (W - WSW) / 2 < b ∧ b ≤ W + (WNW - W) / 2
    · rw [if_pos c13]; decide
    rw [if_neg c13]
    by_cases c14 : W + (WNW - W) / 2 < b ∧ b ≤ WNW + (NW - WNW) / 2
    · rw [if_pos c14]; decide
    rw [if_neg c14]
    by_cases c15 : WNW + (NW - WNW) / 2 < b ∧ b ≤ NW + (NNW - NW) / 2
    · rw [if_pos c15]; decide
    rw [if_neg c15]
    by_cases c16 : NW + (NNW - NW) / 2 < b ∧ b ≤ NNW + (360 - NNW) / 2
    · rw [if_pos c16]; decide
    exfalso
    have a1 : NNO / 2 < b := by
      by_contra hq
      push_neg at hq
      exact c1 (Or.inr ⟨h0, hq⟩)
    have a2 : NNO + (NO - NNO) / 2 < b := by
      by_contra hq
      push_neg at hq
      exact c2 ⟨a1, hq⟩
    have a3 : NO + (ONO - NO) / 2 < b := by
      by_contra hq
      push_neg at hq
      exact c3 ⟨a2, hq⟩
    have a4 : ONO + (O - ONO) / 2 < b := by
      by_contra hq
      push_neg at hq
      exact c4 ⟨a3, hq⟩
    have a5 : O + (OSO - O) / 2 < b := by
      by_contra hq
      push_neg at hq
      exact c5 ⟨a4, hq⟩
    have a6 : OSO + (SO - OSO) / 2 < b := by
      by_contra hq
      push_neg at hq
      exact c6 ⟨a5, hq⟩
    have a7 : SO + (SSO - SO) / 2 < b := by
      by_contra hq
      push_neg at hq
      exact c7 ⟨a6, hq⟩
    have a8 : SSO + (S - SSO) / 2 < b := by
      by_contra hq
      push_neg at hq
      exact c8 ⟨a7, hq⟩
    have a9 : S + (SSW - S) / 2 < b := by
      by_contra hq
      push_neg at hq
      exact c9 ⟨a8, hq⟩
    have a10 : SSW + (SW - SSW) / 2 < b := by
      by_contra hq
      push_neg at hq
      exact c10 ⟨a9, hq⟩
    have a11 : SW + (WSW - SW) / 2 < b := by
      by_contra hq
      push_neg at hq
      exact c11 ⟨a10, hq⟩
    have a12 : WSW + (W - WSW) / 2 < b := by
      by_contra hq
      push_neg at hq
      exact c12 ⟨a11, hq⟩
    have a13 : W + (WNW - W) / 2 < b := by
      by_contra hq
      push_neg at hq
      exact c13 ⟨a12, hq⟩
    have a14 : WNW + (NW - WNW) / 2 < b := by
      by_contra hq
      push_neg at hq
      exact c14 ⟨a13, hq⟩
    have a15 : NW + (NNW - NW) / 2 < b := by
      by_contra hq
      push_neg at hq
      exact c15 ⟨a14, hq⟩
    have a16 : NNW + (360 - NNW) / 2 < b := by
      by_contra hq
      push_neg at hq
      exact c16 ⟨a15, hq⟩
    exact c1 (Or.inl ⟨a16, le_of_lt h1⟩)
  · exact direction_eq_N (Or.inr ⟨le_refl 0, by norm_num [NNO]⟩)
  · exact direction_eq_N (Or.inl ⟨by norm_num [NNW], le_refl 360⟩)
  · exact direction_eq_N (Or.inr ⟨by norm_num, by norm_num [NNO]⟩)

/-- C3 witness: the amended totality statement applied at bearing 180. -/
theorem direction_sector_spec_witness :
    (0 : ℚ) ≤ 180 ∧ (180 : ℚ) < 360 ∧ Direction.Direction 180 ∈ sectorLabels :=
  ⟨by decide, by decide, direction_sector_spec.1 180 (by decide) (by decide)⟩

/-- Evaluation helper: moon phases strictly between new moon and first quarter. -/
lemma phase_desc_waxing_crescent (p : Phase) (h1 : 0 < p) (h2 : p < 0.25) :
    Phase.Description p = "zunehmender Mond (vor Halbmond)" := by
  unfold Phase.Description
  rw [if_neg (by intro h; rw [h] at h1; exact lt_irrefl 0 h1), if_pos ⟨h1, h2⟩]

/-- Evaluation helper: moon phases strictly between first quarter and full moon. -/
lemma phase_desc_waxing_gibbous (p : Phase) (h1 : 0.25 < p) (h2 : p < 0.5) :
    Phase.Description p = "zunehmender Mond (nach Halbmond)" := by
  unfold Phase.Description
  rw [if_neg (show ¬p = 0 by intro h; rw [h] at h1; norm_num at h1),
    if_neg (show ¬(0 < p ∧ p < 0.25) by intro hc; linarith [hc.2]),
    if_neg (show ¬p = 0.25 by intro h; rw [h] at h1; exact lt_irrefl _ h1),
    if_pos ⟨h1, h2⟩]

/-- Evaluation helper: moon phases strictly between full moon and last quarter. -/
lemma phase_desc_waning_gibbous (p : Phase) (h1 : 0.5 < p) (h2 : p < 0.75) :
    Phase.Description p = "abnehmender Mond (vor Halbmond)" := by
  unfold Phase.Description
  rw [if_neg (show ¬p = 0 by intro h; rw [h] at h1; norm_num at h1),
    if_neg (show ¬(0 < p ∧ p < 0.25) by intro hc; linarith [hc.2]),
    if_neg (show ¬p = 0.25 by intro h; rw [h] at h1; norm_num at h1),
    if_neg (show ¬(0.25 < p ∧ p < 0.5) by intro hc; linarith [hc.2]),
    if_neg (show ¬p = 0.5 by intro h; rw [h] at h1; exact lt_irrefl _ h1),
    if_pos ⟨h1, h2⟩]

/-- Evaluation helper: moon phases strictly between last quarter and new moon. -/
lemma phase_desc_waning_crescent (p : Phase) (h1 : 0.75 < p) (h2 : p < 1) :
    Phase.Description p = "abnehmender Mond (nach Halbmond)" := by
  unfold Phase.Description
  rw [if_neg (show ¬p = 0 by intro h; rw [h] at h1; norm_num at h1),
    if_neg (show ¬(0 < p ∧ p < 0.25) by intro hc; linarith [hc.2]),
    if_neg (show ¬p = 0.25 by intro h; rw [h] at h1; norm_num at h1),
    if_neg (show ¬(0.25 < p ∧ p < 0.5) by intro hc; linarith [hc.2]),
    if_neg (show ¬p = 0.5 by intro h; rw [h] at h1; norm_num at h1),
    if_neg (show ¬(0.5 < p ∧ p < 0.75) by intro hc; linarith [hc.2]),
    if_neg (show ¬p = 0.75 by intro h; rw [h] at h1; exact lt_irrefl _ h1),
    if_pos ⟨h1, h2⟩]

/-- Evaluation helper: moon-phase fractions outside [0,1] get the fallback label. -/
lemma phase_desc_out_of_range (p : Phase) (hp : p < 0 ∨ 1 < p) :
    Phase.Description p = "UNBEKANNT" := by
  unfold Phase.Description
  rcases hp with hp | hp
  · rw [if_neg (show ¬p = 0 by intro h; rw [h] at hp; exact lt_irrefl _ hp),
      if_neg (show ¬(0 < p ∧ p < 0.25) by intro hc; linarith [hc.1]),
      if_neg (show ¬p = 0.25 by intro h; rw [h] at hp; norm_num at hp),
      if_neg (show ¬(0.25 < p ∧ p < 0.5) by intro hc; linarith [hc.1]),
      if_neg (show ¬p = 0.5 by intro h; rw [h] at hp; norm_num at hp),
      if_neg (show ¬(0.5 < p ∧ p < 0.75) by intro hc; linarith [hc.1]),
      if_neg (show ¬p = 0.75 by intro h; rw [h] at hp; norm_num at hp),
      if_neg (show ¬(0.75 < p ∧ p < 1) by intro hc; linarith [hc.1]),
      if_neg (show ¬p = 1 by intro h; rw [h] at hp; norm_num at hp)]
  · rw [if_neg (show ¬p = 0 by intro h; rw [h] at hp; norm_num at hp),
      if_neg (show ¬(0 < p ∧ p < 0.25) by intro hc; linarith [hc.2]),
      if_neg (show ¬p = 0.25 by intro h; rw [h] at hp; norm_num at hp),
      if_neg (show ¬(0.25 < p ∧ p < 0.5) by intro hc; linarith [hc.2]),
      if_neg (show ¬p = 0.5 by intro h; rw [h] at hp; norm_num at hp),
      if_neg (show ¬(0.5 < p ∧ p < 0.75) by intro hc; linarith [hc.2]),
      if_neg (show ¬p = 0.75 by intro h; rw [h] at hp; norm_num at hp),
      if_neg (show ¬(0.75 < p ∧ p < 1) by intro hc; linarith [hc.2]),
      if_neg (show ¬p = 1 by intro h; rw [h] at hp; exact lt_irrefl _ hp)]

/-- C4: the moon-phase classifier maps exactly 0 and 1 to the new-moon label,
0.25 / 0.5 / 0.75 to the first-quarter / full-moon / last-quarter labels,
every value strictly inside the four open quarters to the corresponding
waxing/waning label, and every value outside [0,1] to "UNBEKANNT". -/
theorem phase_description_spec :
    Phase.Description 0 = "Neumond" ∧ Phase.Description 1 = "Neumond" ∧
    Phase.Description 0.25 = "zunehmender Halbmond" ∧
    Phase.Description 0.5 = "Vollmond" ∧
    Phase.Description 0.75 = "abnehmender Halbmond" ∧
    (∀ p : Phase, 0 < p → p < 0.25 → Phase.Description p = "zunehmender Mond (vor Halbmond)") ∧
    (∀ p : Phase, 0.25 < p → p < 0.5 → Phase.Description p = "zunehmender Mond (nach Halbmond)") ∧
    (∀ p : Phase, 0.5 < p → p < 0.75 → Phase.Description p = "abnehmender Mond (vor Halbmond)") ∧
    (∀ p : Phase, 0.75 < p → p < 1 → Phase.Description p = "abnehmender Mond (nach Halbmond)") ∧
    (∀ p : Phase, p < 0 ∨ 1 < p → Phase.Description p = "UNBEKANNT") := by
  refine ⟨?_, ?_, ?_, ?_, ?_, phase_desc_waxing_crescent, phase_desc_waxing_gibbous,
    phase_desc_waning_gibbous, phase_desc_waning_crescent, phase_desc_out_of_range⟩
  · unfold Phase.Description
    rw [if_pos rfl]
  · unfold Phase.Description
    rw [if_neg (by norm_num), if_neg (by norm_num), if_neg (by norm_num),
      if_neg (by norm_num), if_neg (by norm_num), if_neg (by norm_num),
      if_neg (by norm_num), if_neg (by norm_num), if_pos rfl]
  · unfold Phase.Description
    rw [if_neg (by norm_num), if_neg (by norm_num), if_pos rfl]
  · unfold Phase.Description
    rw [if_neg (by norm_num), if_neg (by norm_num), if_neg (by norm_num),
      if_neg (by norm_num), if_pos rfl]
  · unfold Phase.Description
    rw [if_neg (by norm_num), if_neg (by norm_num), if_neg (by norm_num),
      if_neg (by norm_num), if_neg (by norm_num), if_neg (by norm_num), if_pos rfl]

/-- C4 witness: the waxing-crescent range applied at phase 1/8 and the
out-of-range fallback applied at phase 2. -/
theorem phase_description_spec_witness :
    (0 : ℚ) < 1 / 8 ∧ (1 / 8 : ℚ) < 0.25 ∧
    Phase.Description (1 / 8) = "zunehmender Mond (vor Halbmond)" ∧
    Phase.Description 2 = "UNBEKANNT" :=
  ⟨by norm_num, by norm_num,
    phase_description_spec.2.2.2.2.2.1 (1 / 8) (by norm_num) (by norm_num),
    phase_description_spec.2.2.2.2.2.2.2.2.2 2 (Or.inr (by norm_num))⟩

/-- Appending one element at a time (the Go loop) builds exactly the map. -/
lemma foldl_append_eq_map {α β : Type} (g : α → β) (l : List α) (init : List β) :
    l.foldl (fun acc x => acc ++ [g x]) init = init ++ l.map g := by
  induction l generalizing init with
  | nil => simp
  | cons h t ih => simp [ih]

/-- C1: `ParseWeatherResponse` fails exactly when the bytes do not deserialize,
the current-weather array is empty, the hourly array has fewer than 12
entries, or the daily array fewer than 3 — checked in this order with
short-circuiting — and any failure returns zero-value `Conditions` and
`Forecast` together with only the error. Every input passing all three
checks succeeds. -/
theorem parseWeatherResponse_error_spec (tf : TimeFmt) (dec : Option WeatherResponse) :
    ((ParseWeatherResponse tf dec).2.2 = none ↔
      ∃ resp, dec = some resp ∧ resp.Current.Weather ≠ [] ∧
        12 ≤ resp.Hourly.length ∧ 3 ≤ resp.Daily.length) ∧
    ((ParseWeatherResponse tf dec).2.2 = some ParseErr.malformed ↔ dec = none) ∧
    (∀ resp, dec = some resp →
      (((ParseWeatherResponse tf dec).2.2 = some ParseErr.missingCurrentWeather ↔
         resp.Current.Weather = []) ∧
       ((ParseWeatherResponse tf dec).2.2 = some ParseErr.insufficientForecastData ↔
         resp.Current.Weather ≠ [] ∧ (resp.Hourly.length < 12 ∨ resp.Daily.length < 3)))) ∧
    ((ParseWeatherResponse tf dec).2.2 ≠ none →
      (ParseWeatherResponse tf dec).1 = Conditions.zero ∧
      (ParseWeatherResponse tf dec).2.1 = Forecast.zero) := by
  cases dec with
  | none => simp [ParseWeatherResponse]
  | some resp =>
    by_cases cw : resp.Current.Weather.length < 1
    · have hw : resp.Current.Weather = [] := by
        cases hl : resp.Current.Weather with
        | nil => rfl
        | cons a l => rw [hl] at cw; simp at cw
      simp [ParseWeatherResponse, cw, hw]
    · have hw : resp.Current.Weather ≠ [] := by
        intro h
        rw [h] at cw
        exact cw (by simp)
      by_cases chh : resp.Hourly.length < 12
      · simp [ParseWeatherResponse, cw, chh, hw]
      · by_cases chd : resp.Daily.length < 3
        · simp [ParseWeatherResponse, cw, chh, chd, hw]
        · simp [ParseWeatherResponse, cw, chh, chd, hw]
          omega

/-- C1 witness: a payload with an empty current-weather array fails with the
missing-current-weather error and zero-value outputs. -/
theorem parseWeatherResponse_error_spec_witness :
    (ParseWeatherResponse tf0 (some respMissing)).2.2 = some ParseErr.missingCurrentWeather ∧
    (ParseWeatherResponse tf0 (some respMissing)).1 = Conditions.zero ∧
    (ParseWeatherResponse tf0 (some respMissing)).2.1 = Forecast.zero := by
  have h := parseWeatherResponse_error_spec tf0 (some respMissing)
  have he : (ParseWeatherResponse tf0 (some respMissing)).2.2 =
      some ParseErr.missingCurrentWeather :=
    ((h.2.2.1 respMissing rfl).1).mpr rfl
  have hz := h.2.2.2 (by rw [he]; simp)
  exact ⟨he, hz.1, hz.2⟩

/-- C7: `ParseGeoResponse` fails exactly when the bytes do not deserialize or
the coordinate array is empty; on a non-empty array it returns the first
element's lat and lon verbatim, ignoring all later elements. -/
theorem parseGeoResponse_spec :
    (∀ dec, (ParseGeoResponse dec).2 ≠ none ↔ dec = none ∨ dec = some []) ∧
    (∀ dec, (ParseGeoResponse dec).2 = some ParseErr.malformed ↔ dec = none) ∧
    (∀ dec, (ParseGeoResponse dec).2 = some ParseErr.noLocationMatch ↔ dec = some []) ∧
    (∀ (g : GeoElem) (rest : List GeoElem),
      ParseGeoResponse (some (g :: rest)) = ({ Lon := g.Lon, Lat := g.Lat }, none)) := by
  refine ⟨?_, ?_, ?_, fun g rest => rfl⟩ <;>
    intro dec <;>
    rcases dec with _ | (_ | ⟨g, rest⟩) <;>
    simp [ParseGeoResponse]

/-- C7 witness: the one-element round-trip example from the specification. -/
theorem parseGeoResponse_spec_witness :
    ParseGeoResponse (some [{ Lon := 3.7654321, Lat := 55.123456 }]) =
      ({ Lon := 3.7654321, Lat := 55.123456 }, none) :=
  parseGeoResponse_spec.2.2.2 { Lon := 3.7654321, Lat := 55.123456 } []

/-- C9: on every accepted payload the numeric current-weather fields and the
daily temperature sub-object are copied verbatim, each hourly rain
probability is rescaled by exactly 100, and the output hourly and daily
sequences have the same length and order as the upstream arrays. -/
theorem parseWeatherResponse_field_passthrough (tf : TimeFmt) (resp : WeatherResponse)
    (hw : resp.Current.Weather ≠ []) (hh : 12 ≤ resp.Hourly.length)
    (hd3 : 3 ≤ resp.Daily.length) :
    (ParseWeatherResponse tf (some resp)).2.2 = none ∧
    (ParseWeatherResponse tf (some resp)).1.Temperature = resp.Current.Temp ∧
    (ParseWeatherResponse tf (some resp)).1.FeelsLike = resp.Current.Feels_Like ∧
    (ParseWeatherResponse tf (some resp)).1.DewPoint = resp.Current.Dew_Point ∧
    (ParseWeatherResponse tf (some resp)).1.Pressure = resp.Current.Pressure ∧
    (ParseWeatherResponse tf (some resp)).1.Humidity = resp.Current.Humidity ∧
    (ParseWeatherResponse tf (some resp)).1.WindSpeed = resp.Current.Wind_Speed ∧
    (ParseWeatherResponse tf (some resp)).1.WindGust = resp.Current.Wind_Gust ∧
    (ParseWeatherResponse tf (some resp)).1.WindDirection = resp.Current.Wind_Deg ∧
    (ParseWeatherResponse tf (some resp)).2.1.Hourly = resp.Hourly.map (convHourly tf) ∧
    (ParseWeatherResponse tf (some resp)).2.1.Daily = resp.Daily.map (convDaily tf) ∧
    (ParseWeatherResponse tf (some resp)).2.1.Hourly.length = resp.Hourly.length ∧
    (ParseWeatherResponse tf (some resp)).2.1.Daily.length = resp.Daily.length ∧
    (ParseWeatherResponse tf (some resp)).2.1.Hourly.map ForecastHourly.RainChance =
      resp.Hourly.map (fun s => s.PoP * 100) ∧
    (ParseWeatherResponse tf (some resp)).2.1.Hourly.map ForecastHourly.Temperature =
      resp.Hourly.map OWMHourlySlot.Temp ∧
    (ParseWeatherResponse tf (some resp)).2.1.Daily.map ForecastDaily.Temp =
      resp.Daily.map (fun s =>
        { Max := s.Temp.Max, Min := s.Temp.Min, Morning := s.Temp.Morn,
          Day := s.Temp.Day, Evening := s.Temp.Eve, Night := s.Temp.Night }) := by
  have hcw : ¬resp.Current.Weather.length < 1 := by
    have := List.length_pos.mpr hw
    omega
  have hch : ¬resp.Hourly.length < 12 := by omega
  have hcd : ¬resp.Daily.length < 3 := by omega
  have hH : (ParseWeatherResponse tf (some resp)).2.1.Hourly = resp.Hourly.map (convHourly tf) := by
    simp only [ParseWeatherResponse, if_neg hcw, if_neg hch, if_neg hcd]
    rw [foldl_append_eq_map]
    simp
  have hD : (ParseWeatherResponse tf (some resp)).2.1.Daily = resp.Daily.map (convDaily tf) := by
    simp only [ParseWeatherResponse, if_neg hcw, if_neg hch, if_neg hcd]
    rw [foldl_append_eq_map]
    simp
  refine ⟨?_, ?_, ?_, ?_, ?_, ?_, ?_, ?_, ?_, hH, hD, ?_, ?_, ?_, ?_, ?_⟩
  · simp only [ParseWeatherResponse, if_neg hcw, if_neg hch, if_neg hcd]
  · simp only [ParseWeatherResponse, if_neg hcw, if_neg hch, if_neg hcd]
  · simp only [ParseWeatherResponse, if_neg hcw, if_neg hch, if_neg hcd]
  · simp only [ParseWeatherResponse, if_neg hcw, if_neg hch, if_neg hcd]
  · simp only [ParseWeatherResponse, if_neg hcw, if_neg hch, if_neg hcd]
  · simp only [ParseWeatherResponse, if_neg hcw, if_neg hch, if_neg hcd]
  · simp only [ParseWeatherResponse, if_neg hcw, if_neg hch, if_neg hcd]
  · simp only [ParseWeatherResponse, if_neg hcw, if_neg hch, if_neg hcd]
  · simp only [ParseWeatherResponse, if_neg hcw, if_neg hch, if_neg hcd]
  · rw [hH]
    simp
  · rw [hD]
    simp
  · rw [hH, List.map_map]
    simp [Function.comp, convHourly]
  · rw [hH, List.map_map]
    simp [Function.comp, convHourly]
  · rw [hD, List.map_map]
    simp [Function.comp, convDaily]

/-- C9 witness: the passthrough statement applied to a concrete accepted
payload with 12 hourly and 3 daily entries. -/
theorem parseWeatherResponse_field_passthrough_witness :
    respOk.Current.Weather ≠ [] ∧ 12 ≤ respOk.Hourly.length ∧ 3 ≤ respOk.Daily.length ∧
    (ParseWeatherResponse tf0 (some respOk)).2.2 = none ∧
    (ParseWeatherResponse tf0 (some respOk)).1.Temperature = 31 :=
  ⟨by decide, by decide, by decide,
    (parseWeatherResponse_field_passthrough tf0 respOk (by decide) (by decide) (by decide)).1,
    (parseWeatherResponse_field_passthrough tf0 respOk (by decide) (by decide) (by decide)).2.1⟩

/-- Skipping other days in the loop is filtering the hourly list first. -/
lemma foldl_rainStep_eq_filter (reference : String) (l : List ForecastHourly)
    (st : List String × String × String) :
    l.foldl (rainStep reference) st = (l.filter fun s => s.Day == reference).foldl rainStepF st := by
  induction l generalizing st with
  | nil => rfl
  | cons h t ih =>
    by_cases hd : h.Day = reference
    · simp only [List.foldl_cons, List.filter_cons]
      rw [show (h.Day == reference) = true by simp [hd]]
      simp only [if_true]
      rw [List.foldl_cons]
      rw [show rainStep reference st h = rainStepF st h by simp [rainStep, hd]]
      exact ih _
    · simp only [List.foldl_cons, List.filter_cons]
      rw [show (h.Day == reference) = false by simp [hd]]
      simp only [Bool.false_eq_true, if_false]
      rw [show rainStep reference st h = st by simp [rainStep, hd]]
      exact ih _

/-- The source's sentinel-string loop plus final flush computes exactly the
run descriptions of the scanner, for hour labels that are never empty. -/
lemma rainLoop_descs :
    ∀ (hours : List ForecastHourly) (values : List String) (cur : Option (String × String)),
      (∀ s ∈ hours, s.Hour ≠ "") → curOk cur →
      rainFlush (hours.foldl rainStepF (openState cur values)) = values ++ descsFrom cur hours := by
  intro hours
  induction hours with
  | nil =>
    intro values cur hh hc
    cases cur with
    | none => simp [openState, rainFlush, descsFrom]
    | some p =>
      obtain ⟨a, b⟩ := p
      simp [openState, rainFlush, descsFrom, hc.1]
  | cons h t ih =>
    intro values cur hh hc
    have hH : h.Hour ≠ "" := hh h (by simp)
    have hht : ∀ s ∈ t, s.Hour ≠ "" := fun s hs => hh s (by simp [hs])
    cases cur with
    | none =>
      by_cases hr : 0 < h.RainChance
      · rw [List.foldl_cons,
          show rainStepF (openState none values) h = openState (some (h.Hour, h.Hour)) values by
            simp [rainStepF, openState, hr],
          ih values (some (h.Hour, h.Hour)) hht ⟨hH, hH⟩]
        simp [descsFrom, hr]
      · rw [List.foldl_cons,
          show rainStepF (openState none values) h = openState none values by
            simp [rainStepF, openState, hr],
          ih values none hht trivial]
        simp [descsFrom, hr]
    | some p =>
      obtain ⟨a, b⟩ := p
      obtain ⟨ha, hb⟩ := hc
      by_cases hr : 0 < h.RainChance
      · rw [List.foldl_cons,
          show rainStepF (openState (some (a, b)) values) h =
              openState (some (a, h.Hour)) values by
            simp [rainStepF, openState, hr, ha],
          ih values (some (a, h.Hour)) hht ⟨ha, hH⟩]
        simp [descsFrom, hr]
      · rw [List.foldl_cons,
          show rainStepF (openState (some (a, b)) values) h =
              openState none (values ++ [describeRun a b]) by
            simp [rainStepF, openState, hr, hb],
          ih (values ++ [describeRun a b]) none hht trivial]
        simp [descsFrom, hr]

/-- C2 counterexample theorem: on `cexF` the closed 00:00–23:00 run is not
rendered as the all-day phrase. -/
theorem getRainyPeriods_allday_counterexample :
    GetRainyPeriods cexF 0 = some "Es regnet von 00:00 - 23:00." ∧
    GetRainyPeriods cexF 0 ≠ some "Es regnet den ganzen Tag über." := by
  constructor
  · rfl
  · decide

/-- C2 (amended): for every forecast whose hourly entries carry non-empty hour
labels and every offset selecting an existing daily entry, `GetRainyPeriods`
equals the run-based description of the same-day hourly slots in original
order: maximal consecutive runs of slots with rain chance > 0; a closed run
is rendered single-hour style when its first and last hour labels coincide
and from-first-to-last style otherwise; the run still open when the scanned
hours end is flushed with the last-seen rainy hour as its end and only this
flushed run is replaced by the all-day phrase when it reads 00:00 - 23:00;
descriptions are joined with ", " in scan order, and a day with no rainy
slot yields the no-rain phrase. -/
theorem getRainyPeriods_runs (f : Forecast) (offset : Nat) (d : ForecastDaily)
    (hd : f.Daily[offset]? = some d) (hh : ∀ s ∈ f.Hourly, s.Hour ≠ "") :
    GetRainyPeriods f offset =
      some (rainyRunsDescription (f.Hourly.filter fun s => s.Day == d.Day)) := by
  unfold GetRainyPeriods
  rw [hd, Option.map_some']
  have hfil : ∀ s ∈ f.Hourly.filter (fun s => s.Day == d.Day), s.Hour ≠ "" :=
    fun s hs => hh s (List.mem_of_mem_filter hs)
  have hloop := rainLoop_descs (f.Hourly.filter fun s => s.Day == d.Day) [] none hfil trivial
  simp only [openState, List.nil_append] at hloop
  rw [foldl_rainStep_eq_filter]
  simp only [rainyRunsDescription, hloop]

/-- C2 witness: the amended statement applied to `wRainF` at offset 0,
evaluating to a two-run description whose hanging single-hour run is
flushed at scan end. -/
theorem getRainyPeriods_runs_witness :
    wRainF.Daily[0]? = some wRainDaily ∧ (∀ s ∈ wRainF.Hourly, s.Hour ≠ "") ∧
    GetRainyPeriods wRainF 0 = some "Es regnet von 10:00 - 11:00, um 18:00." := by
  refine ⟨rfl, by decide, ?_⟩
  rw [getRainyPeriods_runs wRainF 0 wRainDaily rfl (by decide)]
  rfl

/-- Indexing precondition of `GetRainyPeriods`: it succeeds exactly when the
daily sequence is long enough for the requested offset. -/
lemma getRainyPeriods_isSome (f : Forecast) (offset : Nat) :
    (GetRainyPeriods f offset).isSome ↔ offset < f.Daily.length := by
  unfold GetRainyPeriods
  cases h : f.Daily[offset]? with
  | none =>
    rw [List.getElem?_eq_none_iff] at h
    simp only [Option.map_none', Option.isSome_none, Bool.false_eq_true, false_iff]
    omega
  | some d =>
    have := (List.getElem?_eq_some.mp h).1
    simp [this]

/-- `PrintRain` panics exactly on forecasts with fewer than 3 daily entries. -/
lemma printRain_isSome (f : Forecast) : (PrintRain f).isSome ↔ 3 ≤ f.Daily.length := by
  rcases Nat.lt_or_ge f.Daily.length 3 with hlen | hlen
  · have h2 : f.Daily[2]? = none := by
      rw [List.getElem?_eq_none_iff]
      omega
    have hpr : PrintRain f = none := by
      unfold PrintRain
      cases h0 : f.Daily[0]? with
      | none => rfl
      | some d0 => rw [h2]
    simp only [hpr, Option.isSome_none, Bool.false_eq_true, false_iff]
    omega
  · have h0 := List.getElem?_eq_getElem (show 0 < f.Daily.length by omega)
    have h1 := List.getElem?_eq_getElem (show 1 < f.Daily.length by omega)
    have h2 := List.getElem?_eq_getElem (show 2 < f.Daily.length by omega)
    obtain ⟨r0, hr0⟩ := Option.isSome_iff_exists.mp
      ((getRainyPeriods_isSome f 0).mpr (by omega))
    obtain ⟨r1, hr1⟩ := Option.isSome_iff_exists.mp
      ((getRainyPeriods_isSome f 1).mpr (by omega))
    obtain ⟨r2, hr2⟩ := Option.isSome_iff_exists.mp
      ((getRainyPeriods_isSome f 2).mpr (by omega))
    unfold PrintRain
    rw [h0, h1, h2, hr0, hr1, hr2]
    simp [hlen]

/-- C10: `GetRainyPeriods` and `PrintRain` perform no bounds checks of their
own: they are free of out-of-range access exactly when the forecast carries
at least offset+1 (respectively 3) daily entries. -/
theorem rain_indexing_precondition :
    (∀ (f : Forecast) (offset : Nat),
      (GetRainyPeriods f offset).isSome ↔ offset + 1 ≤ f.Daily.length) ∧
    (∀ f : Forecast, (PrintRain f).isSome ↔ 3 ≤ f.Daily.length) := by
  constructor
  · intro f offset
    rw [getRainyPeriods_isSome]
    omega
  · exact printRain_isSome

/-- C10 witness: the characterization applied to the empty forecast (panic)
and to a three-day forecast (success). -/
theorem rain_indexing_precondition_witness :
    ¬(GetRainyPeriods Forecast.zero 0).isSome ∧ (PrintRain wRainF).isSome :=
  ⟨fun hs => absurd ((rain_indexing_precondition.1 Forecast.zero 0).mp hs) (by decide),
    (rain_indexing_precondition.2 wRainF).mpr (by decide)⟩

/-- Out-of-range offsets short-circuit to the validation error. -/
lemma printForecast_out_of_range {offset : Int} (hc : offset < 0 ∨ 2 < offset) (f : Forecast) :
    PrintForecast f offset = some (Except.error (offsetErrMsg offset)) := by
  unfold PrintForecast
  rw [if_pos hc]

/-- In-range offsets never produce the validation error. -/
lemma printForecast_in_range_no_error {offset : Int} (hc : ¬(offset < 0 ∨ 2 < offset))
    (f : Forecast) :
    PrintForecast f offset = none ∨ ∃ out, PrintForecast f offset = some (Except.ok out) := by
  unfold PrintForecast
  rw [if_neg hc]
  cases h0 : f.Daily[offset.toNat]? with
  | none => exact Or.inl rfl
  | some d =>
    cases hr : GetRainyPeriods f offset.toNat with
    | none => exact Or.inl rfl
    | some rain =>
      dsimp only
      by_cases ha : 0 < d.Alerts.length
      · rw [if_pos ha]
        cases hd0 : f.Daily[0]? with
        | none => exact Or.inl rfl
        | some d0 => exact Or.inr ⟨_, rfl⟩
      · rw [if_neg ha]
        exact Or.inr ⟨_, rfl⟩

/-- On a forecast with at least 3 daily entries, in-range offsets succeed. -/
lemma printForecast_success (f : Forecast) (offset : Int) (hlen : 3 ≤ f.Daily.length)
    (h0 : 0 ≤ offset) (h2 : offset ≤ 2) :
    ∃ out, PrintForecast f offset = some (Except.ok out) := by
  have hc : ¬(offset < 0 ∨ 2 < offset) := by omega
  have hlt : offset.toNat < f.Daily.length := by omega
  have hd := List.getElem?_eq_getElem hlt
  obtain ⟨rain, hrr⟩ := Option.isSome_iff_exists.mp ((getRainyPeriods_isSome f offset.toNat).mpr hlt)
  unfold PrintForecast
  rw [if_neg hc, hd, hrr]
  dsimp only
  by_cases ha : 0 < (f.Daily[offset.toNat]).Alerts.length
  · rw [if_pos ha, List.getElem?_eq_getElem (show 0 < f.Daily.length by omega)]
    exact ⟨_, rfl⟩
  · rw [if_neg ha]
    exact ⟨_, rfl⟩

/-- C6: `PrintForecast` returns the offset-out-of-range error exactly for
offsets outside 0..2; the check precedes any forecast access, so offset 9
fails with that error on every forecast including the empty one; and on a
forecast with at least 3 daily entries, offsets 0, 1, 2 never fail. -/
theorem printForecast_offset_spec :
    (∀ (f : Forecast) (offset : Int),
      (∃ e, PrintForecast f offset = some (Except.error e)) ↔ (offset < 0 ∨ 2 < offset)) ∧
    (∀ f : Forecast, PrintForecast f 9 = some (Except.error (offsetErrMsg 9))) ∧
    (∀ (f : Forecast) (offset : Int), 3 ≤ f.Daily.length → 0 ≤ offset → offset ≤ 2 →
      ∃ out, PrintForecast f offset = some (Except.ok out)) := by
  refine ⟨?_, ?_, ?_⟩
  · intro f offset
    constructor
    · rintro ⟨e, he⟩
      by_contra hc
      rcases printForecast_in_range_no_error hc f with h | ⟨out, h⟩ <;> rw [h] at he <;>
        simp at he
    · intro hc
      exact ⟨offsetErrMsg offset, printForecast_out_of_range hc f⟩
  · intro f
    exact printForecast_out_of_range (by omega) f
  · intro f offset h1 h2 h3
    exact printForecast_success f offset h1 h2 h3

/-- C6 witness: offset 9 fails with the range error on the empty forecast;
offset 1 succeeds on a three-day forecast. -/
theorem printForecast_offset_spec_witness :
    PrintForecast Forecast.zero 9 = some (Except.error (offsetErrMsg 9)) ∧
    3 ≤ wOffsetF.Daily.length ∧
    ∃ out, PrintForecast wOffsetF 1 = some (Except.ok out) :=
  ⟨printForecast_offset_spec.2.1 Forecast.zero, by decide,
    printForecast_offset_spec.2.2 wOffsetF 1 (by decide) (by decide) (by decide)⟩

/-- C5 (code bug): with offset 1 and the only alert on day 1, the guard
`len(f.Daily[offset].Alerts) > 0` passes but the loop ranges over
`f.Daily[0].Alerts`, so the exposed alert list is empty instead of
`daily[1].Alerts`. -/
theorem printForecast_alerts_bug :
    PrintForecast bugF 1 = some (Except.ok
      { day := "02.01.2026", tempMin := 0, tempMax := 0, tempMorning := 0, tempDay := 0,
        tempEvening := 0, tempNight := 0, rain := "Es regnet nicht.", alerts := [] }) ∧
    bugF.Daily[1]?.map ForecastDaily.Alerts = some [bugAlert] ∧ bugAlert ∈ bugDay1.Alerts := by
  refine ⟨rfl, rfl, by decide⟩

/-- C8: given today/tomorrow/day-after daily entries, `PrintAlerts` presents
the alert list of the first (lowest offset) day whose list is non-empty, and
only that day's list; if all three are empty it signals "no alerts". -/
theorem printAlerts_first_nonempty (f : Forecast) (d0 d1 d2 : ForecastDaily)
    (h0 : f.Daily[0]? = some d0) (h1 : f.Daily[1]? = some d1) (h2 : f.Daily[2]? = some d2) :
    (d0.Alerts ≠ [] → PrintAlerts f = some (AlertsOutput.alerts d0.Alerts)) ∧
    (d0.Alerts = [] → d1.Alerts ≠ [] → PrintAlerts f = some (AlertsOutput.alerts d1.Alerts)) ∧
    (d0.Alerts = [] → d1.Alerts = [] → d2.Alerts ≠ [] →
      PrintAlerts f = some (AlertsOutput.alerts d2.Alerts)) ∧
    (d0.Alerts = [] → d1.Alerts = [] → d2.Alerts = [] →
      PrintAlerts f = some AlertsOutput.noAlerts) := by
  refine ⟨?_, ?_, ?_, ?_⟩
  · intro hne
    unfold PrintAlerts
    rw [h0, h1, h2]
    dsimp only
    rw [if_pos (List.length_pos.mpr hne)]
  · intro he0 hne
    unfold PrintAlerts
    rw [h0, h1, h2]
    dsimp only
    rw [if_neg (by simp [he0]), if_pos (List.length_pos.mpr hne)]
  · intro he0 he1 hne
    unfold PrintAlerts
    rw [h0, h1, h2]
    dsimp only
    rw [if_neg (by simp [he0]), if_neg (by simp [he1]),
      if_pos (List.length_pos.mpr hne)]
  · intro he0 he1 he2
    unfold PrintAlerts
    rw [h0, h1, h2]
    dsimp only
    rw [if_neg (by simp [he0]), if_neg (by simp [he1]), if_neg (by simp [he2])]

/-- C8 witness: on `bugF` (alert only on day 1) the lookup presents day 1's
list; on the alert-free `wOffsetF` it signals no alerts. -/
theorem printAlerts_first_nonempty_witness :
    PrintAlerts bugF = some (AlertsOutput.alerts [bugAlert]) ∧
    PrintAlerts wOffsetF = some AlertsOutput.noAlerts :=
  ⟨(printAlerts_first_nonempty bugF bugDay0 bugDay1 bugDay0 rfl rfl rfl).2.1 rfl (by decide),
    (printAlerts_first_nonempty wOffsetF wRainDaily wRainDaily wRainDaily rfl rfl rfl).2.2.2
      rfl rfl rfl⟩

end weather
